import Mathlib

/-!
Shallow embedding of the `create_container` provisioning tool (Go).
The repository contains three snapshots of the same program; the most
complete variant (the one with `setImageId`, `prepareHostConfig`,
`startContainer` and the full `run` pipeline) is embedded here, function
by function.  Go strings are Lean `String`s, Go `int` is `Int`, Go error
values that flow into `check`/`panic` are modelled with `Except GoPanic`.
-/

set_option autoImplicit false

/-- A Go `panic` with its message (the program's only error mechanism). -/
structure GoPanic where
  msg : String
deriving DecidableEq, Repr

/-- Go `strings.Contains(s, sub)`: `sub` occurs as a contiguous substring
of `s` (true for the empty `sub`, as in Go). -/
def stringsContains (s sub : String) : Bool :=
  decide (sub.data <:+: s.data)

/-- Character-list core of Go `strings.Split` with a one-character
separator (the program only splits on `":"` and `" "`).  Go's `Split`
always returns at least one element; on `""` it returns `[""]`. -/
def splitOnChar (sep : Char) : List Char → List (List Char)
  | [] => [[]]
  | c :: rest =>
    if c = sep then [] :: splitOnChar sep rest
    else
      match splitOnChar sep rest with
      | [] => [[c]]
      | g :: gs => (c :: g) :: gs

/-- Go `strings.Split(s, sep)` for a one-character separator. -/
def stringsSplit (s : String) (sep : Char) : List String :=
  (splitOnChar sep s.data).map String.mk

/-- Source `extractImageId`: `strings.Split(id, ":")[1]`.  Indexing `[1]`
on a split with fewer than two elements is a Go runtime panic
(index out of range), modelled as `Except.error`. -/
def extractImageId (id : String) : Except GoPanic String :=
  match (stringsSplit id ':').get? 1 with
  | none => .error ⟨"runtime error: index out of range"⟩
  | some s => .ok s

/-- The fields of `types.ImageSummary` the program reads. -/
structure Image where
  id : String
  repoTags : List String
deriving DecidableEq, Repr

/-- One iteration of the inner `RepoTags` loop of `setImageId`/`getImageId`:
`tagTmp := strings.Split(name, ":")`, then
`if strings.Contains(tagTmp[0], repo) { if strings.Contains(tagTmp[1], tag) { ... } }`.
`tagTmp[1]` is only evaluated when the first `Contains` is true, and
panics when the split has a single element (no `":"` in the label). -/
def tagStep (repo tag nm : String) : Except GoPanic Bool :=
  let tagTmp := stringsSplit nm ':'
  if stringsContains (tagTmp.headD "") repo then
    match tagTmp.get? 1 with
    | none => .error ⟨"runtime error: index out of range"⟩
    | some snd => .ok (stringsContains snd tag)
  else
    .ok false

/-- The inner `RepoTags` loop: each matching label overwrites the
accumulator (`p.Image = image`), no short-circuit. -/
def scanTags (repo tag : String) (img : Image) :
    List String → Option Image → Except GoPanic (Option Image)
  | [], acc => .ok acc
  | nm :: rest, acc =>
    match tagStep repo tag nm with
    | .error e => .error e
    | .ok true => scanTags repo tag img rest (some img)
    | .ok false => scanTags repo tag img rest acc

/-- How the image loop of `setImageId` terminates: `byId` is the
`return` taken from inside the loop when `strings.Contains(image.ID, repo)`
holds (the deferred emptiness check is never registered on this path);
`done` is normal loop completion with the accumulated match. -/
inductive ScanExit where
  | byId : Image → ScanExit
  | done : Option Image → ScanExit
deriving DecidableEq, Repr

/-- The image loop of `setImageId` (identical in `getImageId`): for each
image, first the id-containment check with an immediate `return`, then
the `RepoTags` scan. -/
def scanImages (repo tag : String) :
    List Image → Option Image → Except GoPanic ScanExit
  | [], acc => .ok (.done acc)
  | img :: rest, acc =>
    if stringsContains img.id repo then .ok (.byId img)
    else
      match scanTags repo tag img img.repoTags acc with
      | .error e => .error e
      | .ok acc2 => scanImages repo tag rest acc2

/-- Source `setImageId` of the complete variant: run the scan; on normal
loop completion the deferred closure panics when `p.Image.ID == ""`
(the zero value, i.e. when no match was recorded).  The short-circuit
`return` happens before the `defer` statement is reached, so no check
runs on that path. -/
def setImageId (repo tag : String) (images : List Image) :
    Except GoPanic Image :=
  match scanImages repo tag images none with
  | .error e => .error e
  | .ok (.byId img) => .ok img
  | .ok (.done none) => .error ⟨"No proper Image found in this host."⟩
  | .ok (.done (some img)) =>
    if img.id = "" then .error ⟨"No proper Image found in this host."⟩
    else .ok img

/-- Source `prepare`: `if len(p.ImageId) != 0 { p.ImageRepository = p.ImageId }
else { p.ImageRepository = imageRepository[p.Project] }`. -/
def prepareImageRepository (imageId defaultRepo : String) : String :=
  if imageId.length ≠ 0 then imageId else defaultRepo

/-- Did `tagStep` complete without a Go panic? -/
def tagStepOk (repo tag nm : String) : Bool :=
  match tagStep repo tag nm with
  | .ok _ => true
  | .error _ => false

/-- Did `tagStep` record a repository/tag match? -/
def tagMatches (repo tag nm : String) : Bool :=
  match tagStep repo tag nm with
  | .ok b => b
  | .error _ => false

/-- An image carries at least one matching `repo:tag` label. -/
def imgMatchesTags (repo tag : String) (img : Image) : Bool :=
  img.repoTags.any (tagMatches repo tag)

/-- The last image of the list with a matching label (later matches
overwrite earlier ones in the scan). -/
def lastTagMatch (repo tag : String) (images : List Image) : Option Image :=
  images.foldl (fun acc img => if imgMatchesTags repo tag img then some img else acc) none

/-- Key list of the `shell` map of the complete variant
(`zsh -> /bin/zsh`, `bash -> /bin/bash`, `sh -> /bin/sh`).  `checkShell`
iterates the map only to build a *set* of available shells, so the
(unspecified) Go map order does not affect its result. -/
def shellKeys : List String := ["zsh", "bash", "sh"]

/-- The `shell` map: well-known absolute path of each candidate shell
(`""` is the Go zero value for a missing key). -/
def shellPath (k : String) : String :=
  if k = "zsh" then "/bin/zsh"
  else if k = "bash" then "/bin/bash"
  else if k = "sh" then "/bin/sh"
  else ""

/-- The fixed preference order of `checkShell`: `shellPriority := []string{"zsh", "bash", "sh"}`. -/
def shellPriority : List String := ["zsh", "bash", "sh"]

/-- Source `checkShell` of the complete variant, parameterised by the
path-stat oracle `ex` (`inspectContainerFile`): collect the available
candidates, then return the first one in priority order; panic when the
available set is empty (or, unreachably, when the priority loop finds
nothing). -/
def checkShell (ex : String → Bool) : Except GoPanic String :=
  let availableShell := shellKeys.filter (fun k => ex (shellPath k))
  if availableShell.isEmpty = false then
    match shellPriority.find? (fun s => availableShell.contains s) with
    | some s => .ok s
    | none => .error ⟨"No proper shell in container available."⟩
  else .error ⟨"No proper shell in container available."⟩

/-- The `home` map of the source: every known project maps to
`/home/shinto/host` (`""` is the Go zero value for a missing key). -/
def homeFor (proj : String) : String :=
  if proj = "konrad" ∨ proj = "higgs" ∨ proj = "racdb" then "/home/shinto/host" else ""

/-- The identity line appended to the host `passwd` copy:
`p.Uname + ":x:" + Itoa(p.Uid) + ":" + Itoa(p.Gid) + "::" + home[p.Project] + ":" + shell[p.Shell] + "\n"`. -/
def passwdLine (uname : String) (uid gid : Int) (homeDir shPath : String) : String :=
  uname ++ ":x:" ++ toString uid ++ ":" ++ toString gid ++ "::" ++ homeDir ++ ":" ++ shPath ++ "\n"

/-- The identity line appended to the host `group` copy:
`p.Gname + ":x:" + Itoa(p.Gid) + ":" + "\n"`. -/
def groupLine (gname : String) (gid : Int) : String :=
  gname ++ ":x:" ++ toString gid ++ ":" ++ "\n"

/-- Environment outcomes of the individual operations inside
`copyFileFromContainer`. -/
structure CopyEnv where
  /-- `cli.CopyFromContainer` succeeds. -/
  copyOk : Bool := true
  /-- `archive.CopyTo` (untar to the host path) succeeds; its error is discarded by the source. -/
  untarOk : Bool := true
  /-- `os.OpenFile(to, O_APPEND|O_WRONLY, 0644)` succeeds; its error is never checked. -/
  openOk : Bool := true
  /-- `fd.WriteString(hook())` succeeds; its error is discarded. -/
  writeOk : Bool := true
deriving DecidableEq, Repr

/-- Source `copyFileFromContainer` of the complete variant, tracking the
content of the host file at `to`.  Only the initial `CopyFromContainer`
error goes through `check` (panic); the `archive.CopyTo` error is
discarded, the `os.OpenFile` error is never checked (`WriteString` on a
nil `*os.File` returns `ErrInvalid`), and the `WriteString` error is
discarded, so all later failures leave the run going with the file
lacking the appended line.  `containerContent` is the container-side
file, `hostOrig` whatever was at `to` before the untar. -/
def copyFileFromContainer (env : CopyEnv) (containerContent hostOrig hook : String) :
    Except GoPanic String :=
  if env.copyOk = false then .error ⟨"Copy file from container failed."⟩
  else
    let afterUntar := if env.untarOk then containerContent else hostOrig
    if env.openOk && env.writeOk then .ok (afterUntar ++ hook)
    else .ok afterUntar

/-- The `Project` fields (embedded `Options` plus resolved state) that the
embedded functions read.  Defaults are the Go zero values. -/
structure ProjectState where
  cmd : String := ""
  cname : String := ""
  gid : Int := 0
  gname : String := ""
  imageId : String := ""
  noproxyHosts : String := ""
  privilege : Bool := false
  root : Bool := false
  tag : String := ""
  uid : Int := 0
  uname : String := ""
  project : String := ""
  workdir : String := ""
  imageRepository : String := ""
  image : Image := ⟨"", []⟩
  shell : String := ""
  sourceDir : String := ""
deriving Repr

/-- Source `rewriteUidGid` of the complete variant: copy `/etc/passwd`
and `/etc/group` out of the probe (the `pgfiles` map holds exactly these
two entries; the map order only affects which copy happens first, not the
outcome of either file), appending the corresponding hook line to each
host copy.  `pSrc`/`gSrc` are the container-side file contents. -/
def rewriteUidGid (pe ge : CopyEnv) (p : ProjectState) (pSrc gSrc : String) :
    Except GoPanic (String × String) :=
  match copyFileFromContainer pe pSrc ""
      (passwdLine p.uname p.uid p.gid (homeFor p.project) (shellPath p.shell)) with
  | .error e => .error e
  | .ok pc =>
    match copyFileFromContainer ge gSrc "" (groupLine p.gname p.gid) with
    | .error e => .error e
    | .ok gc => .ok (pc, gc)

/-- The `container.Config` fields the program writes. -/
structure ContainerConfig where
  image : String := ""
  entrypoint : List String := []
  user : String := ""
  env : List String := []
deriving DecidableEq, Repr

/-- Source `prepareConfig` of the complete variant.  `extractImageId`
can panic.  For the probe (`init = true`) the function returns before
`config.User` is assigned, so the user stays the zero value `""` (no
user).  For the final container it sets `User = "0:0"` and builds the
env slice: `make([]string, 4)` yields four empty strings, `append` adds
after them. -/
def prepareConfig (p : ProjectState) (init : Bool) : Except GoPanic ContainerConfig :=
  match extractImageId p.image.id with
  | .error e => .error e
  | .ok iid =>
    let base : ContainerConfig :=
      { image := iid, entrypoint := stringsSplit p.cmd ' ', user := "", env := [] }
    if init then .ok base
    else
      let envStr : List String := ["", "", "", ""]
      let envStr := if p.root then envStr ++ ["C_FORCE_ROOT=1"] else envStr
      let envStr := envStr ++ ["no_proxy=" ++ p.noproxyHosts]
      .ok { base with user := "0:0", env := envStr }

/-- The `mount.Mount` fields the program writes (`Type`, `Source`,
`Target`, `ReadOnly`, `BindOptions.Propagation`). -/
structure MountGo where
  mtype : String := ""
  source : String := ""
  target : String := ""
  readOnly : Bool := false
  propagation : String := ""
deriving DecidableEq, Repr

/-- The `container.HostConfig` fields the program writes. -/
structure HostConfigGo where
  binds : List String := []
  autoRemove : Bool := false
  privileged : Bool := false
  mounts : List MountGo := []
deriving DecidableEq, Repr

/-- Go `filepath.Join(a, b)` for the already-clean absolute directories
the program passes (no trailing slashes, no `.`/`..` segments). -/
def filepathJoin (a b : String) : String := a ++ "/" ++ b

/-- Source `prepareHostConfig` of the complete variant, transcribed
mount by mount.  `init = true` returns `nil`.  All five `mount.Mount`
values are built read-write with `mount.PropagationRPrivate`; the
`Binds` slice lists all five `source:target` pairs, while the `Mounts`
slice of the source (line `hostConfig.Mounts = ...`) lists `passwdMount`
twice and never `groupMount`. -/
def prepareHostConfig (p : ProjectState) (init : Bool) : Option HostConfigGo :=
  if init then none
  else
    let prop := "rprivate"
    let logMount : MountGo :=
      ⟨"bind", filepathJoin p.workdir "log", "/var/log/deployer", false, prop⟩
    let srcMount : MountGo :=
      ⟨"bind", p.sourceDir, "/home/shinto/deployer", false, prop⟩
    let hostMount : MountGo :=
      ⟨"bind", p.workdir, "/home/shinto/host", false, prop⟩
    let passwdMount : MountGo :=
      ⟨"bind", filepathJoin p.workdir "passwd", "/etc/passwd", false, prop⟩
    let groupMount : MountGo :=
      ⟨"bind", filepathJoin p.workdir "group", "/etc/group", false, prop⟩
    some
      { binds :=
          [logMount.source ++ ":" ++ logMount.target,
           srcMount.source ++ ":" ++ srcMount.target,
           hostMount.source ++ ":" ++ hostMount.target,
           passwdMount.source ++ ":" ++ passwdMount.target,
           groupMount.source ++ ":" ++ groupMount.target],
        autoRemove := true,
        privileged := p.privilege,
        mounts := [logMount, srcMount, hostMount, passwdMount, passwdMount] }

/-- Environment outcomes of the daemon/filesystem operations the `run`
pipeline performs.  `shellExists` is the `ContainerStatPath` oracle on
the probe's filesystem; `passwdSrc`/`groupSrc` are the container-side
identity files; `probeId`/`finalId` are the ids the daemon assigns to
the two created containers. -/
structure Env where
  clientOk : Bool := true
  images : List Image := []
  sourceDirOk : Bool := true
  shellExists : String → Bool := fun _ => false
  passwdSrc : String := ""
  groupSrc : String := ""
  passwdCopy : CopyEnv := {}
  groupCopy : CopyEnv := {}
  removeOk : Bool := true
  repoconfigOk : Bool := true
  installJsonOk : Bool := true
  probeCreateOk : Bool := true
  finalCreateOk : Bool := true
  probeId : String := ""
  finalId : String := ""
  startOk : Bool := true

/-- The steps of the `run` pipeline that can abort (panic). -/
inductive Step where
  | client
  | resolveImage
  | sourceDir
  | createProbe
  | findShell
  | rewriteIdentity
  | removeProbe
  | repoconfig
  | installJson
  | createFinal
  | startFinal
  | usage
deriving DecidableEq, Repr

/-- Observable outcome of one `run`: which step panicked (`none` for a
completed run), the daemon's container-name set, the `p.Container`
field, the name argument passed to each of the two `ContainerCreate`
calls, the host identity-file contents, and progress flags. -/
structure RunResult where
  abortStep : Option Step := none
  daemon : List String := []
  container : Option String := none
  probeName : Option String := none
  finalName : Option String := none
  shellChosen : Option String := none
  passwdFile : Option String := none
  groupFile : Option String := none
  probeRemoved : Bool := false
  configWritten : Bool := false
  installCopied : Bool := false
  finalCreated : Bool := false
  started : Bool := false
deriving DecidableEq, Repr

/-- Source `run` of the complete variant, step for step:
`createDockerClient; setImageId; setSourceDir; createWorkDir;
createContainer(true); checkShell; rewriteUidGid; removeContainer;
touchRepoconfigJson; copyInstallJson; createContainer(false);
startContainer; printUsage`.  Each `check`/`panic` aborts with the
current state.  `createContainer` runs `prepareConfig` first (whose
`extractImageId` can panic) and then the daemon call, which fails on a
daemon error or when a container with the requested name already exists
(names are unique on the daemon); `removeContainer` frees the name.
`createWorkDir` ignores its `MkdirAll`/`Chdir` errors and cannot abort.
`printUsage` slices `p.Container.ID[:12]`, a panic when the id is
shorter than 12 bytes. -/
def run (env : Env) (p : ProjectState) (daemon0 : List String) : RunResult :=
  let st : RunResult := { daemon := daemon0 }
  if env.clientOk = false then { st with abortStep := some .client } else
  match setImageId p.imageRepository p.tag env.images with
  | .error _ => { st with abortStep := some .resolveImage }
  | .ok img =>
  if env.sourceDirOk = false then { st with abortStep := some .sourceDir } else
  let p1 := { p with image := img }
  match prepareConfig p1 true with
  | .error _ => { st with abortStep := some .createProbe }
  | .ok _ =>
  if env.probeCreateOk = false || st.daemon.contains p1.cname then
    { st with abortStep := some .createProbe } else
  let st1 := { st with daemon := p1.cname :: st.daemon,
                       container := some env.probeId,
                       probeName := some p1.cname }
  match checkShell env.shellExists with
  | .error _ => { st1 with abortStep := some .findShell }
  | .ok sh =>
  let st2 := { st1 with shellChosen := some sh }
  let p2 := { p1 with shell := sh }
  match rewriteUidGid env.passwdCopy env.groupCopy p2 env.passwdSrc env.groupSrc with
  | .error _ => { st2 with abortStep := some .rewriteIdentity }
  | .ok files =>
  let st3 := { st2 with passwdFile := some files.1, groupFile := some files.2 }
  if env.removeOk = false then { st3 with abortStep := some .removeProbe } else
  let st4 := { st3 with daemon := st3.daemon.erase p2.cname, probeRemoved := true }
  if env.repoconfigOk = false then { st4 with abortStep := some .repoconfig } else
  let st5 := { st4 with configWritten := true }
  if env.installJsonOk = false then { st5 with abortStep := some .installJson } else
  let st6 := { st5 with installCopied := true }
  match prepareConfig p2 false with
  | .error _ => { st6 with abortStep := some .createFinal }
  | .ok _ =>
  if env.finalCreateOk = false || st6.daemon.contains p2.cname then
    { st6 with abortStep := some .createFinal } else
  let st7 := { st6 with daemon := p2.cname :: st6.daemon,
                        container := some env.finalId,
                        finalName := some p2.cname,
                        finalCreated := true }
  if env.startOk = false then { st7 with abortStep := some .startFinal } else
  let st8 := { st7 with started := true }
  if env.finalId.length < 12 then { st8 with abortStep := some .usage } else
  st8

/-- `splitOnChar` always returns at least one group, like Go's `strings.Split`. -/
theorem splitOnChar_ne_nil (sep : Char) (l : List Char) : splitOnChar sep l ≠ [] := by
  induction l with
  | nil => simp [splitOnChar]
  | cons c rest ih =>
    simp only [splitOnChar]
    split
    · simp
    · split
      · simp
      · simp

/-- Splitting a separator-free list yields the single group `[l]`. -/
theorem splitOnChar_of_not_mem {sep : Char} {l : List Char} (h : sep ∉ l) :
    splitOnChar sep l = [l] := by
  induction l with
  | nil => rfl
  | cons c rest ih =>
    simp only [List.mem_cons, not_or] at h
    have h1 : c ≠ sep := fun hc => h.1 hc.symm
    simp only [splitOnChar, if_neg h1, ih h.2]

/-- Splitting past a first separator preceded by a separator-free prefix. -/
theorem splitOnChar_append {sep : Char} {xs : List Char} (ys : List Char) (h : sep ∉ xs) :
    splitOnChar sep (xs ++ sep :: ys) = xs :: splitOnChar sep ys := by
  induction xs with
  | nil => simp [splitOnChar]
  | cons c rest ih =>
    simp only [List.mem_cons, not_or] at h
    have h1 : c ≠ sep := fun hc => h.1 hc.symm
    simp only [List.cons_append, splitOnChar, if_neg h1, List.append_eq, ih h.2]

/-- Modelled from the claim's words, for comparison with `extractImageId`:
the substring of `s` after the first `':'`. -/
def claimedAfterFirstColon (s : String) : String :=
  String.intercalate ":" ((stringsSplit s ':').tail)

/-- C10 counterexample: on `"a:b:c"` (an id containing a `':'`),
`extractImageId` returns `"b"`, the segment between the first and second
colon, not the substring `"b:c"` after the first colon, so the claim's
description of the returned value is false as stated. -/
theorem c10_counterexample :
    extractImageId "a:b:c" = .ok "b"
    ∧ claimedAfterFirstColon "a:b:c" = "b:c"
    ∧ ("b" : String) ≠ "b:c" := by
  refine ⟨rfl, rfl, by decide⟩

/-- C10 (amended): `extractImageId` returns the second field of the
colon-split of the id — the substring after the first `':'` when the id
contains exactly one `':'`, and the segment between the first and second
`':'` in general; it is total exactly on ids containing a `':'`, and on
any input without a `':'` it indexes element 1 of a one-element split
and panics (index out of range). -/
theorem c10_extractImageId_behaviour :
    (∀ s : String, ':' ∉ s.data →
      extractImageId s = .error ⟨"runtime error: index out of range"⟩)
    ∧ (∀ a b : String, ':' ∉ a.data →
      ∃ r, extractImageId (a ++ ":" ++ b) = .ok r)
    ∧ (∀ a b : String, ':' ∉ a.data → ':' ∉ b.data →
      extractImageId (a ++ ":" ++ b) = .ok b)
    ∧ (∀ a b c : String, ':' ∉ a.data → ':' ∉ b.data →
      extractImageId (a ++ ":" ++ b ++ ":" ++ c) = .ok b) := by
  have colonData : (":" : String).data = [':'] := rfl
  have hdata : ∀ a b : String, (a ++ ":" ++ b).data = a.data ++ ':' :: b.data := by
    intro a b
    simp [String.data_append, colonData]
  refine ⟨?_, ?_, ?_, ?_⟩
  · intro s h
    simp [extractImageId, stringsSplit, splitOnChar_of_not_mem h]
  · intro a b ha
    simp only [extractImageId, stringsSplit, hdata, splitOnChar_append _ ha]
    cases hb : splitOnChar ':' b.data with
    | nil => exact absurd hb (splitOnChar_ne_nil ':' b.data)
    | cons g gs => exact ⟨String.mk g, rfl⟩
  · intro a b ha hb
    simp only [extractImageId, stringsSplit, hdata, splitOnChar_append _ ha,
      splitOnChar_of_not_mem hb]
    rfl
  · intro a b c ha hb
    have hdata2 : (a ++ ":" ++ b ++ ":" ++ c).data
        = a.data ++ ':' :: (b.data ++ ':' :: c.data) := by
      have colonData : (":" : String).data = [':'] := rfl
      simp [String.data_append, colonData]
    simp only [extractImageId, stringsSplit, hdata2, splitOnChar_append _ ha,
      splitOnChar_append _ hb]
    rfl

/-- C10 witness: the amended behaviour at concrete inputs — a panic on
the colon-free `"abc"`, and the suffix after the colon on
`"sha256" ++ ":" ++ "deadbeef"`. -/
theorem c10_witness :
    extractImageId "abc" = .error ⟨"runtime error: index out of range"⟩
    ∧ extractImageId ("sha256" ++ ":" ++ "deadbeef") = .ok "deadbeef" :=
  ⟨c10_extractImageId_behaviour.1 "abc" (by decide),
   c10_extractImageId_behaviour.2.2.1 "sha256" "deadbeef" (by decide) (by decide)⟩

/-- C1: for every identity record, `rewriteUidGid` (via
`copyFileFromContainer` with every file operation succeeding) appends to
each host copy exactly the synthesized line —
`"<uname>:x:<uid>:<gid>::<home>:<shell-path>\n"` to the passwd copy and
`"<gname>:x:<gid>:\n"` to the group copy — leaving the copied container
content as an unchanged prefix; on the claim's example record the two
lines are exactly `"dev:x:1000:1000::/home/shinto/host:/bin/zsh\n"` and
`"dev:x:1000:\n"`. -/
theorem c1_rewriteUidGid_appends (p : ProjectState) (pSrc gSrc : String) :
    rewriteUidGid {} {} p pSrc gSrc =
      .ok (pSrc ++ passwdLine p.uname p.uid p.gid (homeFor p.project) (shellPath p.shell),
           gSrc ++ groupLine p.gname p.gid)
    ∧ pSrc.data <+:
        (pSrc ++ passwdLine p.uname p.uid p.gid (homeFor p.project) (shellPath p.shell)).data
    ∧ gSrc.data <+: (gSrc ++ groupLine p.gname p.gid).data
    ∧ passwdLine "dev" 1000 1000 "/home/shinto/host" "/bin/zsh"
        = "dev:x:1000:1000::/home/shinto/host:/bin/zsh\n"
    ∧ groupLine "dev" 1000 = "dev:x:1000:\n" := by
  refine ⟨rfl, ?_, ?_, by decide, by decide⟩
  · rw [String.data_append]
    exact List.prefix_append _ _
  · rw [String.data_append]
    exact List.prefix_append _ _

/-- C2: at workdir `/w` and source dir `/s`, `prepareHostConfig` with
`init = false` builds the five intended read-write `rprivate` bind
mounts and lists all five in `Binds`, but its `Mounts` slice lists the
passwd mount twice and omits the group mount (`/etc/group` has no entry),
contradicting the claimed five-distinct-mount plan; the `Binds` slice
and the constructed-but-unlisted group mount show the slip. -/
theorem c2_prepareHostConfig_group_mount_missing :
    ∃ hc : HostConfigGo,
      prepareHostConfig { workdir := "/w", sourceDir := "/s" } false = some hc
      ∧ hc.binds = ["/w/log:/var/log/deployer", "/s:/home/shinto/deployer",
                    "/w:/home/shinto/host", "/w/passwd:/etc/passwd", "/w/group:/etc/group"]
      ∧ hc.mounts.map MountGo.target
          = ["/var/log/deployer", "/home/shinto/deployer", "/home/shinto/host",
             "/etc/passwd", "/etc/passwd"]
      ∧ (hc.mounts.map MountGo.target).contains "/etc/group" = false
      ∧ hc.mounts.all (fun m => !m.readOnly && m.propagation == "rprivate") = true
      ∧ hc.mounts.length = 5
      ∧ ¬ hc.mounts.Nodup := by
  refine ⟨_, rfl, rfl, rfl, rfl, rfl, rfl, by decide⟩

/-- C8: for every configuration (any uid/gid/username/identity fields),
whenever `prepareConfig` returns a create config for the final container
(`init = false`) its `User` is the numeric root `"0:0"`, and for the
probe (`init = true`) the function returns before assigning `User`, so
the config carries no user (the Go zero value `""`). -/
theorem c8_prepareConfig_user (p : ProjectState) (cfg : ContainerConfig) :
    (prepareConfig p false = .ok cfg → cfg.user = "0:0")
    ∧ (prepareConfig p true = .ok cfg → cfg.user = "") := by
  constructor <;> intro h <;>
  · cases hE : extractImageId p.image.id with
    | error e => simp [prepareConfig, hE] at h
    | ok iid =>
      simp only [prepareConfig, hE, Bool.false_eq_true, if_false, if_true,
        Except.ok.injEq] at h
      simp [← h]

/-- C8 witness: the theorem at a concrete configuration — the final
create config carries user `"0:0"`, the probe config carries `""`. -/
theorem c8_witness :
    (⟨"abcd", ["tail", "-f", "/dev/null"], "0:0", ["", "", "", "", "no_proxy="]⟩
        : ContainerConfig).user = "0:0"
    ∧ (⟨"abcd", ["tail", "-f", "/dev/null"], "", []⟩ : ContainerConfig).user = "" :=
  ⟨(c8_prepareConfig_user { image := ⟨"sha256:abcd", []⟩, cmd := "tail -f /dev/null" }
      ⟨"abcd", ["tail", "-f", "/dev/null"], "0:0", ["", "", "", "", "no_proxy="]⟩).1 (by rfl),
   (c8_prepareConfig_user { image := ⟨"sha256:abcd", []⟩, cmd := "tail -f /dev/null" }
      ⟨"abcd", ["tail", "-f", "/dev/null"], "", []⟩).2 (by rfl)⟩

/-- C3: for every path-stat oracle, `checkShell` fails (with the
no-shell panic) exactly when none of the candidate shells' well-known
paths exist; whenever any candidate exists it succeeds, returning an
existing candidate of minimal index in the fixed preference order
`zsh > bash > sh`; in particular it returns zsh when zsh is present,
bash when zsh is absent but bash and sh are present, and the sole
member when only one candidate exists. -/
theorem c3_checkShell_priority :
    (∀ ex : String → Bool,
      (checkShell ex = .error ⟨"No proper shell in container available."⟩
        ↔ ∀ k ∈ shellKeys, ex (shellPath k) = false)
      ∧ (∀ k ∈ shellKeys, ex (shellPath k) = true →
          ∃ s, checkShell ex = .ok s ∧ s ∈ shellKeys ∧ ex (shellPath s) = true
            ∧ ∀ j ∈ shellKeys, ex (shellPath j) = true →
                shellPriority.indexOf s ≤ shellPriority.indexOf j))
    ∧ checkShell (fun pth => pth == "/bin/zsh" || pth == "/bin/bash" || pth == "/bin/sh")
        = .ok "zsh"
    ∧ checkShell (fun pth => pth == "/bin/bash" || pth == "/bin/sh") = .ok "bash"
    ∧ checkShell (fun pth => pth == "/bin/bash") = .ok "bash"
    ∧ checkShell (fun pth => pth == "/bin/sh") = .ok "sh" := by
  refine ⟨fun ex => ?_, rfl, rfl, rfl, rfl⟩
  cases h1 : ex "/bin/zsh" <;> cases h2 : ex "/bin/bash" <;> cases h3 : ex "/bin/sh" <;>
    refine ⟨?_, fun k hk hex => ?_⟩ <;>
    simp_all [checkShell, shellKeys, shellPath, shellPriority] <;>
    (rcases hk with rfl | rfl | rfl <;> simp_all)

/-- C3 witness: the theorem applied at two concrete oracles — only `sh`
present (the success branch yields the selected shell with its
minimality property), and nothing present (the no-shell panic via the
failure equivalence). -/
theorem c3_witness :
    (∃ s, checkShell (fun pth => pth == "/bin/sh") = .ok s ∧ s ∈ shellKeys
        ∧ (fun pth => pth == "/bin/sh") (shellPath s) = true
        ∧ ∀ j ∈ shellKeys, (fun pth => pth == "/bin/sh") (shellPath j) = true →
            shellPriority.indexOf s ≤ shellPriority.indexOf j)
    ∧ checkShell (fun _ => false) = .error ⟨"No proper shell in container available."⟩ :=
  ⟨(c3_checkShell_priority.1 (fun pth => pth == "/bin/sh")).2 "sh" (by decide) rfl,
   ((c3_checkShell_priority.1 (fun _ => false)).1).mpr (fun _ _ => rfl)⟩

/-- Step form of the inner tag loop: a non-panicking label either
records the image or leaves the accumulator. -/
theorem scanTags_cons (repo tag : String) (img : Image) (nm : String)
    (rest : List String) (acc : Option Image) (b : Bool)
    (ht : tagStep repo tag nm = .ok b) :
    scanTags repo tag img (nm :: rest) acc
      = scanTags repo tag img rest (if b then some img else acc) := by
  cases b <;> simp [scanTags, ht]

/-- When no label of the list panics, the inner tag loop returns the
image if any label matches and the unchanged accumulator otherwise. -/
theorem scanTags_of_ok (repo tag : String) (img : Image) (names : List String)
    (acc : Option Image) (h : ∀ nm ∈ names, tagStepOk repo tag nm = true) :
    scanTags repo tag img names acc
      = .ok (if names.any (tagMatches repo tag) then some img else acc) := by
  induction names generalizing acc with
  | nil => simp [scanTags]
  | cons nm rest ih =>
    have hnm := h nm (List.mem_cons_self nm rest)
    obtain ⟨b, ht⟩ : ∃ b, tagStep repo tag nm = .ok b := by
      cases htt : tagStep repo tag nm with
      | error e => simp [tagStepOk, htt] at hnm
      | ok b => exact ⟨b, rfl⟩
    rw [scanTags_cons repo tag img nm rest acc b ht,
      ih _ (fun x hx => h x (List.mem_cons_of_mem _ hx))]
    have hm : tagMatches repo tag nm = b := by simp [tagMatches, ht]
    cases b <;> simp [List.any_cons, hm]

/-- Step form of the image loop for an image whose id does not contain
the match string and whose tag scan does not panic. -/
theorem scanImages_cons_no_id (repo tag : String) (img : Image)
    (rest : List Image) (acc acc2 : Option Image)
    (h1 : stringsContains img.id repo = false)
    (h2 : scanTags repo tag img img.repoTags acc = .ok acc2) :
    scanImages repo tag (img :: rest) acc = scanImages repo tag rest acc2 := by
  simp [scanImages, h1, h2]

/-- When no image id contains the match string and no label panics, the
image loop completes normally with the last tag match recorded. -/
theorem scanImages_of_no_id (repo tag : String) (images : List Image)
    (acc : Option Image)
    (hid : ∀ i ∈ images, stringsContains i.id repo = false)
    (hok : ∀ i ∈ images, ∀ nm ∈ i.repoTags, tagStepOk repo tag nm = true) :
    scanImages repo tag images acc
      = .ok (.done (images.foldl
          (fun a i => if imgMatchesTags repo tag i then some i else a) acc)) := by
  induction images generalizing acc with
  | nil => simp [scanImages]
  | cons img rest ih =>
    have h1 : stringsContains img.id repo = false := hid img (List.mem_cons_self img rest)
    rw [scanImages_cons_no_id repo tag img rest acc _ h1
        (scanTags_of_ok repo tag img img.repoTags acc
          (hok img (List.mem_cons_self img rest))),
      ih _ (fun i hi => hid i (List.mem_cons_of_mem _ hi))
        (fun i hi => hok i (List.mem_cons_of_mem _ hi))]
    simp [imgMatchesTags, List.foldl_cons]

/-- The id-containment short-circuit: the first image whose id contains
the match string is returned from inside the loop, whatever the
accumulated tag matches before it. -/
theorem scanImages_short (repo tag : String) (pre : List Image) (img : Image)
    (post : List Image) (acc : Option Image)
    (hid : ∀ i ∈ pre, stringsContains i.id repo = false)
    (hok : ∀ i ∈ pre, ∀ nm ∈ i.repoTags, tagStepOk repo tag nm = true)
    (hmatch : stringsContains img.id repo = true) :
    scanImages repo tag (pre ++ img :: post) acc = .ok (.byId img) := by
  induction pre generalizing acc with
  | nil => simp [scanImages, hmatch]
  | cons i rest ih =>
    have h1 : stringsContains i.id repo = false := hid i (List.mem_cons_self i rest)
    rw [List.cons_append,
      scanImages_cons_no_id repo tag i (rest ++ img :: post) acc _ h1
        (scanTags_of_ok repo tag i i.repoTags acc (hok i (List.mem_cons_self i rest)))]
    exact ih _ (fun x hx => hid x (List.mem_cons_of_mem _ hx))
      (fun x hx => hok x (List.mem_cons_of_mem _ hx))

/-- C4 (amended): the image scan of `setImageId`/`getImageId` applies
the id-containment check to every image with the configured match
string (the explicit image id when configured, otherwise the default
repository string — `prepareImageRepository`), short-circuiting at the
first image whose id contains it regardless of earlier repository:tag
matches; and only when no image id contains the match string does it
visit every image's repository:tag labels without short-circuiting, the
last match seen winning. -/
theorem c4_scan_behaviour :
    (∀ (repo tag : String) (pre : List Image) (img : Image) (post : List Image),
      (∀ i ∈ pre, stringsContains i.id repo = false) →
      (∀ i ∈ pre, ∀ nm ∈ i.repoTags, tagStepOk repo tag nm = true) →
      stringsContains img.id repo = true →
      scanImages repo tag (pre ++ img :: post) none = .ok (.byId img))
    ∧ (∀ (repo tag : String) (images : List Image),
      (∀ i ∈ images, stringsContains i.id repo = false) →
      (∀ i ∈ images, ∀ nm ∈ i.repoTags, tagStepOk repo tag nm = true) →
      scanImages repo tag images none = .ok (.done (lastTagMatch repo tag images))) :=
  ⟨fun repo tag pre img post hid hok hmatch =>
    scanImages_short repo tag pre img post none hid hok hmatch,
   fun repo tag images hid hok =>
    scanImages_of_no_id repo tag images none hid hok⟩

/-- C4 counterexample: with no explicit image id configured the match
string is the default repository substring (here `"dep"`), and the scan
still short-circuits on an image whose id happens to contain it: the
result is the first id-containing image, not the last repository:tag
match the claim prescribes for the no-explicit-id case. -/
theorem c4_counterexample :
    prepareImageRepository "" "dep" = "dep"
    ∧ setImageId "dep" "latest" [⟨"xxdepyy", []⟩, ⟨"sha256:aa", ["dep:latest"]⟩]
        = .ok ⟨"xxdepyy", []⟩
    ∧ lastTagMatch "dep" "latest" [⟨"xxdepyy", []⟩, ⟨"sha256:aa", ["dep:latest"]⟩]
        = some ⟨"sha256:aa", ["dep:latest"]⟩
    ∧ (⟨"xxdepyy", []⟩ : Image) ≠ ⟨"sha256:aa", ["dep:latest"]⟩ :=
  ⟨rfl, rfl, rfl, by decide⟩

/-- C4 witness: the amended behaviour at concrete image lists — a
short-circuit past an earlier tag match, and a completed scan keeping
the later of two tag matches. -/
theorem c4_witness :
    scanImages "r" "t" ([⟨"a", ["x:y"]⟩] ++ ⟨"zrz", []⟩ :: []) none
      = .ok (.byId ⟨"zrz", []⟩)
    ∧ scanImages "r" "t" [⟨"a", ["r:t"]⟩, ⟨"b", ["r:t"]⟩] none
      = .ok (.done (lastTagMatch "r" "t" [⟨"a", ["r:t"]⟩, ⟨"b", ["r:t"]⟩])) :=
  ⟨c4_scan_behaviour.1 "r" "t" [⟨"a", ["x:y"]⟩] ⟨"zrz", []⟩ []
      (by decide) (by decide) (by decide),
   c4_scan_behaviour.2 "r" "t" [⟨"a", ["r:t"]⟩, ⟨"b", ["r:t"]⟩]
      (by decide) (by decide)⟩

/-- A last-match fold over a list with no matching element keeps `none`. -/
theorem foldl_if_keep_none {α : Type} (f : α → Bool) (l : List α)
    (h : ∀ x ∈ l, f x = false) :
    l.foldl (fun a i => if f i then some i else a) (none : Option α) = none := by
  induction l with
  | nil => rfl
  | cons x rest ih =>
    rw [List.foldl_cons, if_neg (by simp [h x (List.mem_cons_self x rest)])]
    exact ih (fun y hy => h y (List.mem_cons_of_mem _ hy))

/-- C5: on an image list where no image id contains the configured
match string and no repository:tag label matches (every label scan
completing without a match), `setImageId` completes the scan and then
fails with the no-image panic — the deferred emptiness check fires on
the zero-valued image — rather than handing a zero-valued image to the
rest of the pipeline. -/
theorem c5_setImageId_fails_when_no_match (repo tag : String) (images : List Image)
    (hid : ∀ i ∈ images, stringsContains i.id repo = false)
    (hok : ∀ i ∈ images, ∀ nm ∈ i.repoTags, tagStepOk repo tag nm = true)
    (hmt : ∀ i ∈ images, ∀ nm ∈ i.repoTags, tagMatches repo tag nm = false) :
    setImageId repo tag images = .error ⟨"No proper Image found in this host."⟩ := by
  have hall : ∀ i ∈ images, imgMatchesTags repo tag i = false := by
    intro i hi
    rw [imgMatchesTags, List.any_eq_false]
    intro nm hnmem
    simp [hmt i hi nm hnmem]
  have hfold := foldl_if_keep_none (imgMatchesTags repo tag) images hall
  simp [setImageId, scanImages_of_no_id repo tag images none hid hok, hfold]

/-- C5 witness: the theorem at a concrete non-matching image list
(including a colon-free label, which scans without panicking because its
repository part does not contain the match string). -/
theorem c5_witness :
    setImageId "r" "t" [⟨"sha256:aa", ["x:y", "nocolonlabel"]⟩]
      = .error ⟨"No proper Image found in this host."⟩ :=
  c5_setImageId_fails_when_no_match "r" "t" [⟨"sha256:aa", ["x:y", "nocolonlabel"]⟩]
    (by decide) (by decide) (by decide)

/-- A concrete, fully-populated configuration for exercising the `run`
pipeline. -/
def demoProject : ProjectState :=
  { cname := "deployer_x", cmd := "tail -f /dev/null", imageRepository := "compute",
    tag := "latest", uname := "dev", uid := 1000, gid := 1000, gname := "dev",
    project := "higgs", noproxyHosts := "localhost,127.0.0.1",
    workdir := "/w", sourceDir := "/s" }

/-- A concrete all-success environment for `run`: one image matched by
its `compute:latest` label, zsh present in the probe, and daemon ids for
both containers. -/
def demoEnv : Env :=
  { images := [⟨"sha256:0123456789ab", ["compute:latest"]⟩],
    shellExists := fun pth => pth == "/bin/zsh",
    passwdSrc := "root:x:0:0::/root:/bin/sh\n", groupSrc := "root:x:0:\n",
    probeId := "probe0123456789", finalId := "final0123456789" }

/-- C6 counterexample: in a run where everything succeeds except the
probe-container removal, `removeContainer`'s error goes through `check`,
which panics: the pipeline aborts at the removal step and never writes
the config artifacts, never creates the final container and never
starts it — refuting the claim that removal failure does not abort the
run. -/
theorem c6_counterexample :
    (run { demoEnv with removeOk := false } demoProject []).abortStep
        = some Step.removeProbe
    ∧ (run { demoEnv with removeOk := false } demoProject []).configWritten = false
    ∧ (run { demoEnv with removeOk := false } demoProject []).finalCreated = false
    ∧ (run { demoEnv with removeOk := false } demoProject []).started = false :=
  ⟨rfl, rfl, rfl, rfl⟩

set_option maxHeartbeats 1000000 in
/-- C6 (amended): a failure of the probe-container removal step is
reported and aborts the run like any other failure — in every run whose
removal fails, whatever else happens, the pipeline aborts and does not
proceed to write the config artifacts or create or start the final
container. -/
theorem c6_remove_failure_aborts (env : Env) (p : ProjectState) (d0 : List String)
    (h : env.removeOk = false) :
    (run env p d0).abortStep ≠ none
    ∧ (run env p d0).configWritten = false
    ∧ (run env p d0).finalCreated = false
    ∧ (run env p d0).started = false := by
  simp only [run]
  repeat' split
  all_goals simp_all

/-- C6 witness: the amended theorem applied at the concrete
remove-failing environment. -/
theorem c6_witness :
    (run { demoEnv with removeOk := false } demoProject []).abortStep ≠ none
    ∧ (run { demoEnv with removeOk := false } demoProject []).configWritten = false
    ∧ (run { demoEnv with removeOk := false } demoProject []).finalCreated = false
    ∧ (run { demoEnv with removeOk := false } demoProject []).started = false :=
  c6_remove_failure_aborts { demoEnv with removeOk := false } demoProject [] rfl

/-- C7: `copyFileFromContainer` never checks the error of
`os.OpenFile` (and discards the `WriteString` error), so when opening
the host passwd copy for append fails, the run does not abort: it
completes, creating and starting the final container while the passwd
file still holds only the container content without the synthesized
identity line — contradicting the claim that an open or write failure
is fatal. -/
theorem c7_open_failure_not_fatal :
    (run { demoEnv with passwdCopy := { openOk := false } } demoProject []).abortStep = none
    ∧ (run { demoEnv with passwdCopy := { openOk := false } } demoProject []).finalCreated
        = true
    ∧ (run { demoEnv with passwdCopy := { openOk := false } } demoProject []).started = true
    ∧ (run { demoEnv with passwdCopy := { openOk := false } } demoProject []).passwdFile
        = some "root:x:0:0::/root:/bin/sh\n"
    ∧ (run { demoEnv with passwdCopy := { openOk := false } } demoProject []).passwdFile
        ≠ some ("root:x:0:0::/root:/bin/sh\n"
            ++ passwdLine "dev" 1000 1000 "/home/shinto/host" "/bin/zsh")
    ∧ (run { demoEnv with passwdCopy := { openOk := false } } demoProject []).groupFile
        = some ("root:x:0:\n" ++ groupLine "dev" 1000) :=
  ⟨rfl, rfl, rfl, rfl, by decide, rfl⟩

set_option maxHeartbeats 1000000 in
/-- C9: in every completed run, the name passed to the probe's
`ContainerCreate` and the name passed to the final `ContainerCreate`
are the same configured `Cname`; the single `Container` field ends up
overwritten with the final container's id; and — the daemon refusing a
create for an already-taken name — success implies the probe was
removed before the final create. -/
theorem c9_one_name_two_containers (env : Env) (p : ProjectState) (d0 : List String)
    (h : (run env p d0).abortStep = none) :
    (run env p d0).probeName = some p.cname
    ∧ (run env p d0).finalName = some p.cname
    ∧ (run env p d0).container = some env.finalId
    ∧ (run env p d0).probeRemoved = true := by
  revert h
  simp only [run]
  repeat' split
  all_goals intro h
  all_goals simp_all

/-- C9 witness: the theorem at the concrete all-success run. -/
theorem c9_witness :
    (run demoEnv demoProject []).probeName = some demoProject.cname
    ∧ (run demoEnv demoProject []).finalName = some demoProject.cname
    ∧ (run demoEnv demoProject []).container = some demoEnv.finalId
    ∧ (run demoEnv demoProject []).probeRemoved = true :=
  c9_one_name_two_containers demoEnv demoProject [] rfl
